import Mathlib

set_option autoImplicit false

namespace NewsRag

/-! Shallow embedding of the news-rag retrieval-and-verdict pipeline:
the snippet extractor and verdict synthesis of FactChecker
(src/lib/fact-checker.ts), the filter compiler, where-clause semantics and
lazy collection handling of ChromaVectorStore (src/lib/vector-store.ts),
the cosine-similarity helper of EmbeddingsService, and the provider
selection of AIService.  JavaScript strings handled character by character
are modelled as lists of characters; JavaScript numbers as rationals, with
an Option layer where NaN can arise. -/

/-- Lowercase every character, modelling String.prototype.toLowerCase on the
texts handled by the fact checker. -/
def lowerL (s : List Char) : List Char := s.map Char.toLower

/-- Whitespace test for the regex character class of backslash-s. -/
def isWsChar (c : Char) : Bool := c.isWhitespace

/-- Sentence delimiter test for the regex character class [.!?]. -/
def isSentChar (c : Char) : Bool := c = '.' || c = '!' || c = '?'

/-- Split a character list on maximal nonempty runs of separator characters,
keeping the possibly empty pieces at both ends, exactly as
String.prototype.split behaves on a one-character-class regex repeated with
a plus. -/
def splitRuns (p : Char → Bool) : List Char → List (List Char)
  | [] => [[]]
  | c :: rest =>
    if p c then
      match rest with
      | [] => [] :: splitRuns p rest
      | c2 :: _ => if p c2 then splitRuns p rest else [] :: splitRuns p rest
    else
      match splitRuns p rest with
      | [] => [[c]]
      | h :: t => (c :: h) :: t

/-- Decide whether needle occurs as a contiguous substring of hay, modelling
String.prototype.includes. -/
def containsSub (needle : List Char) : List Char → Bool
  | [] => needle.isEmpty
  | c :: rest => needle.isPrefixOf (c :: rest) || containsSub needle rest

/-- Strip whitespace from both ends, modelling String.prototype.trim. -/
def trimL (s : List Char) : List Char :=
  ((s.dropWhile isWsChar).reverse.dropWhile isWsChar).reverse

/-- Number of claim words occurring inside the lowercased sentence,
modelling claimWords.filter of word, sentenceLower.includes word, .length
inside FactChecker.extractRelevantText. -/
def countMatches (claimWords : List (List Char)) (sentenceLower : List Char) : Nat :=
  (claimWords.filter (fun w => containsSub w sentenceLower)).length

/-- The best-sentence selection loop of FactChecker.extractRelevantText:
walk the sentences, keeping the first sentence that attains a strictly
larger match count than every sentence before it; the kept sentence is
stored trimmed. -/
def bestSentence (claimWords : List (List Char)) :
    List (List Char) → List Char → Nat → List Char
  | [], best, _ => best
  | s :: rest, best, maxMatches =>
    if maxMatches < countMatches claimWords (lowerL s) then
      bestSentence claimWords rest (trimL s) (countMatches claimWords (lowerL s))
    else
      bestSentence claimWords rest best maxMatches

/-- Three-character ellipsis appended after truncation. -/
def ellipsis : List Char := ['.', '.', '.']

/-- The claim words: the lowercased claim split on whitespace runs. -/
def claimWordsOf (claim : List Char) : List (List Char) :=
  splitRuns isWsChar (lowerL claim)

/-- The sentences: the candidate text split on sentence punctuation runs. -/
def sentencesOf (text : List Char) : List (List Char) :=
  splitRuns isSentChar text

/-- Model of FactChecker.extractRelevantText: split the candidate text into
sentences, keep the sentence sharing the most claim words, truncate to
maxLength characters and append an ellipsis when longer, and fall back to
the first maxLength characters of the whole text when the kept sentence is
empty. -/
def extractRelevantText (claim text : List Char) (maxLength : Nat := 200) : List Char :=
  let best := bestSentence (claimWordsOf claim) (sentencesOf text) [] 0
  if maxLength < best.length then best.take maxLength ++ ellipsis
  else if best.isEmpty then text.take maxLength
  else best

/-- JavaScript number that may be NaN: none models NaN. -/
abbrev JSNum := Option ℚ

/-- Math.min over possibly-NaN numbers: NaN propagates. -/
def jsMin (a b : JSNum) : JSNum :=
  match a, b with
  | some x, some y => some (min x y)
  | _, _ => none

/-- Math.max over possibly-NaN numbers: NaN propagates. -/
def jsMax (a b : JSNum) : JSNum :=
  match a, b with
  | some x, some y => some (max x y)
  | _, _ => none

/-- The five admissible verdict strings of FactChecker.isValidVerdict. -/
def verdictValues : List String :=
  ["TRUE", "FALSE", "PARTIALLY_TRUE", "UNVERIFIED", "MISLEADING"]

/-- FactChecker.isValidVerdict lifted to a possibly absent parsed field:
Array.prototype.includes over the five verdict strings is false on an
undefined field. -/
def isValidVerdict : Option String → Bool
  | some s => verdictValues.contains s
  | none => false

/-- Outcome of the model call followed by JSON.parse inside
generateFactCheckAnalysis.  modelCallFailure: aiService.generateText threw;
parseFailure: JSON.parse threw; parsed: a JSON object was produced, whose
verdict and explanation fields are optional strings and whose confidence
field is either absent or a finite JSON number (an absent field is none and
turns into NaN under the Math.min and Math.max coercions). -/
inductive SynthesisOutcome where
  | modelCallFailure : SynthesisOutcome
  | parseFailure : SynthesisOutcome
  | parsed (verdict : Option String) (confidence : Option ℚ)
      (explanation : Option String) : SynthesisOutcome

/-- Analysis record returned by generateFactCheckAnalysis; confidence is a
JavaScript number where none models NaN, and explanation may be the
undefined value. -/
structure Analysis where
  verdict : String
  confidence : JSNum
  explanation : Option String
  deriving DecidableEq

/-- The fixed fallback analysis produced by the catch block of
generateFactCheckAnalysis. -/
def fallbackAnalysis : Analysis :=
  { verdict := "UNVERIFIED"
    confidence := some (1 / 10)
    explanation := some "Unable to verify claim due to analysis error. Please review manually." }

/-- Body of the try block of generateFactCheckAnalysis: fail when the model
call or JSON.parse failed, fail when the parsed verdict is not one of the
five admissible strings, and otherwise return the verdict, the clamped
confidence Math.max 0 (Math.min 1 confidence), and the explanation. -/
def analysisTryBlock : SynthesisOutcome → Except String Analysis
  | .modelCallFailure => .error "Failed to generate text"
  | .parseFailure => .error "Unexpected token in JSON"
  | .parsed v c e =>
    if isValidVerdict v then
      .ok { verdict := v.getD ""
            confidence := jsMax (some 0) (jsMin (some 1) c)
            explanation := e }
    else
      .error "Invalid verdict from analysis"

/-- Model of FactChecker.generateFactCheckAnalysis: run the try block and
replace any error with the fixed fallback analysis, so the function is
total and never raises to its caller. -/
def generateFactCheckAnalysis (outcome : SynthesisOutcome) : Analysis :=
  match analysisTryBlock outcome with
  | .ok a => a
  | .error _ => fallbackAnalysis

/-- Primitive metadata or filter value: a finite number or a string. -/
inductive JsVal where
  | num (q : ℚ) : JsVal
  | str (s : String) : JsVal
  deriving DecidableEq

/-- JavaScript truthiness on primitive values: 0 and the empty string are
falsy. -/
def jsTruthy : JsVal → Bool
  | .num q => decide (q ≠ 0)
  | .str s => decide (s ≠ "")

/-- Filter value as found in the untyped filter argument of searchSimilar:
either an object carrying the optional operator fields gte, lte and in, or
a primitive value. -/
inductive FilterValue where
  | obj (gte lte : Option JsVal) (inVals : Option (List JsVal)) : FilterValue
  | prim (v : JsVal) : FilterValue
  deriving DecidableEq

/-- One compiled where-clause condition. -/
inductive Cond where
  | gteCond (key : String) (v : JsVal) : Cond
  | lteCond (key : String) (v : JsVal) : Cond
  | inCond (key : String) (vs : List JsVal) : Cond
  | eqCond (key : String) (v : FilterValue) : Cond
  deriving DecidableEq

/-- Compiled where clause: a bare condition or an and-conjunction. -/
inductive Where where
  | single (c : Cond) : Where
  | conj (cs : List Cond) : Where
  deriving DecidableEq

/-- Conditions pushed by one iteration of the loop of
ChromaVectorStore.convertFilterToWhere, following its branch order: a
publishedAt object contributes its truthy gte and lte bounds, a source or
category object with an in field contributes a membership condition, a
credibilityScore object contributes its gte bound when present, and every
other entry is pushed as a direct equality condition. -/
def entryConds : String × FilterValue → List Cond
  | (key, .obj g l i) =>
    if key = "publishedAt" then
      (match g with
       | some gv => if jsTruthy gv then [Cond.gteCond key gv] else []
       | none => []) ++
      (match l with
       | some lv => if jsTruthy lv then [Cond.lteCond key lv] else []
       | none => [])
    else if key = "source" ∧ i.isSome then
      [Cond.inCond key (i.getD [])]
    else if key = "category" ∧ i.isSome then
      [Cond.inCond key (i.getD [])]
    else if key = "credibilityScore" then
      match g with
      | some gv => [Cond.gteCond key gv]
      | none => []
    else
      [Cond.eqCond key (.obj g l i)]
  | (key, .prim v) => [Cond.eqCond key (.prim v)]

/-- Model of ChromaVectorStore.convertFilterToWhere: gather the conditions
of every filter entry in order, then return no filter on zero conditions,
the bare condition on exactly one, and an and-conjunction otherwise. -/
def convertFilterToWhere (filter : List (String × FilterValue)) : Option Where :=
  match (filter.map entryConds).flatten with
  | [] => none
  | [c] => some (.single c)
  | c :: c2 :: rest => some (.conj (c :: c2 :: rest))

/-- Stored metadata fields of an indexed article used by retrieval. -/
structure Metadata where
  title : String
  source : String
  publishedAt : String
  category : String
  credibilityScore : ℚ
  summary : String
  deriving DecidableEq

/-- Field lookup on stored metadata by key string. -/
def metaGet (md : Metadata) (key : String) : Option JsVal :=
  if key = "title" then some (.str md.title)
  else if key = "source" then some (.str md.source)
  else if key = "publishedAt" then some (.str md.publishedAt)
  else if key = "category" then some (.str md.category)
  else if key = "credibilityScore" then some (.num md.credibilityScore)
  else if key = "summary" then some (.str md.summary)
  else none

/-- Backend greater-or-equal comparison on primitive values: numeric or
lexicographic, false across kinds. -/
def jsGe (a b : JsVal) : Bool :=
  match a, b with
  | .num x, .num y => decide (y ≤ x)
  | .str x, .str y => decide (y ≤ x)
  | _, _ => false

/-- Satisfaction of one compiled condition by the metadata of a stored
record, following the documented ChromaDB operator semantics; a record
lacking the addressed field matches nothing. -/
def matchesCond (md : Metadata) : Cond → Bool
  | .gteCond key v =>
    match metaGet md key with
    | some w => jsGe w v
    | none => false
  | .lteCond key v =>
    match metaGet md key with
    | some w => jsGe v w
    | none => false
  | .inCond key vs =>
    match metaGet md key with
    | some w => vs.contains w
    | none => false
  | .eqCond key fv =>
    match metaGet md key, fv with
    | some w, .prim v => decide (w = v)
    | _, _ => false

/-- Satisfaction of a compiled where clause. -/
def matchesWhere (md : Metadata) : Where → Bool
  | .single c => matchesCond md c
  | .conj cs => cs.all (matchesCond md)

/-- An absent where clause matches every record: no filter. -/
def matchesWhereOpt (md : Metadata) : Option Where → Bool
  | none => true
  | some w => matchesWhere md w

/-- One record stored in the backing collection; dist abstracts the distance
the backend reports for the query embedding of the current invocation. -/
structure StoredRecord where
  id : String
  dist : ℚ
  md : Metadata
  deriving DecidableEq

/-- Modelled from the spec: the chromadb client library is external to this
repository, and collection.query is specified to return only stored records
satisfying the where clause, at most nResults of them, each with its
reported distance. -/
def collectionQuery (store : List StoredRecord) (nResults : Nat)
    (whereClause : Option Where) : List StoredRecord :=
  (store.filter (fun r => matchesWhereOpt r.md whereClause)).take nResults

/-- One formatted result of searchSimilar. -/
structure SearchHit where
  id : String
  score : ℚ
  metadata : Metadata
  deriving DecidableEq

/-- Model of ChromaVectorStore.searchSimilar: compile the filter when one is
given, query the collection, and convert each distance to the similarity
score 1 - distance. -/
def searchSimilar (store : List StoredRecord) (_queryEmbedding : List ℚ)
    (topK : Nat) (filter : Option (List (String × FilterValue))) : List SearchHit :=
  let whereClause : Option Where :=
    match filter with
    | none => none
    | some f => convertFilterToWhere f
  (collectionQuery store topK whereClause).map
    (fun r => { id := r.id, score := 1 - r.dist, metadata := r.md })

/-- One supporting-evidence item of a fact-check result. -/
structure Evidence where
  articleId : String
  relevantText : String
  source : String
  credibilityScore : ℚ
  deriving DecidableEq

/-- The assembled fact-check result; confidence is a JavaScript number where
none models NaN, and explanation may be the undefined value. -/
structure FactCheckResult where
  articleId : String
  claim : String
  verdict : String
  confidence : JSNum
  supportingEvidence : List Evidence
  explanation : Option String
  checkedAt : Nat
  deriving DecidableEq

/-- JavaScript disjunction a or b on strings: the empty string is falsy. -/
def jsOrStr (a b : String) : String := if a = "" then b else a

/-- JavaScript articleId or empty-string default on the optional argument. -/
def jsOrEmpty : Option String → String
  | none => ""
  | some s => if s = "" then "" else s

/-- Model of a successful run of FactChecker.checkClaim: retrieve at most
ten records through the mandatory credibility filter, build the supporting
evidence with extracted snippets from summary-or-title, synthesize the
analysis, and assemble the result.  The embedding of the claim, the model
response outcome and the clock are oracles supplied as arguments. -/
def checkClaim (store : List StoredRecord) (claimEmbedding : List ℚ)
    (claim : String) (articleId : Option String)
    (outcome : SynthesisOutcome) (now : Nat) : FactCheckResult :=
  let evidenceResults := searchSimilar store claimEmbedding 10
    (some [("credibilityScore", FilterValue.obj (some (.num (6 / 10))) none none)])
  let supportingEvidence := evidenceResults.map (fun r =>
    { articleId := r.id
      relevantText := String.mk (extractRelevantText claim.toList
        (jsOrStr r.metadata.summary r.metadata.title).toList)
      source := r.metadata.source
      credibilityScore := r.metadata.credibilityScore })
  let analysis := generateFactCheckAnalysis outcome
  { articleId := jsOrEmpty articleId
    claim := claim
    verdict := analysis.verdict
    confidence := analysis.confidence
    supportingEvidence := supportingEvidence
    explanation := analysis.explanation
    checkedAt := now }

/-- Sum of squares of the entries of a vector. -/
def sumSq (v : List ℝ) : ℝ := (v.map (fun x => x * x)).sum

/-- Pairwise dot product of two vectors of equal length. -/
def dotProd (a b : List ℝ) : ℝ := (List.zipWith (fun x y => x * y) a b).sum

open Classical in
/-- Model of EmbeddingsService.calculateSimilarity: reject vectors of
unequal length with the dimension-mismatch error, return 0 when either
computed norm is zero, and otherwise return the cosine similarity. -/
noncomputable def calculateSimilarity (a b : List ℝ) : Except String ℝ :=
  if a.length ≠ b.length then .error "Embeddings must have the same dimension"
  else if Real.sqrt (sumSq a) = 0 ∨ Real.sqrt (sumSq b) = 0 then .ok 0
  else .ok (dotProd a b / (Real.sqrt (sumSq a) * Real.sqrt (sumSq b)))

/-- The two language-model backends. -/
inductive Provider where
  | gemini : Provider
  | openai : Provider
  deriving DecidableEq

/-- Configuration read from the environment: the preferred provider name,
whose zod schema is restricted to openai or gemini with default gemini, and
whether each API key is set to a truthy value. -/
structure EnvConfig where
  aiProvider : Provider
  geminiKey : Bool
  openaiKey : Bool
  deriving DecidableEq

/-- Whether the environment holds a key for the given provider. -/
def hasKey (env : EnvConfig) : Provider → Bool
  | .gemini => env.geminiKey
  | .openai => env.openaiKey

/-- The other provider. -/
def altProvider : Provider → Provider
  | .gemini => .openai
  | .openai => .gemini

/-- Result of one call to AIService.getInstance: the returned or thrown
value, the console warnings emitted, and the cached instance afterwards. -/
structure SelectOutcome where
  result : Except String Provider
  warnings : List String
  cache : Option Provider

/-- Model of AIService.getInstance: return the cached instance when
present; otherwise pick the preferred provider when its key is set, fall
back to the other provider with a console warning when only that key is
set, and throw when neither key is set.  A chosen provider is written to
the cache; nothing is cached on failure. -/
def getInstance (env : EnvConfig) (cached : Option Provider) : SelectOutcome :=
  match cached with
  | some p => { result := .ok p, warnings := [], cache := some p }
  | none =>
    match env.aiProvider with
    | .gemini =>
      if env.geminiKey then
        { result := .ok .gemini, warnings := [], cache := some .gemini }
      else if env.openaiKey then
        { result := .ok .openai
          warnings := ["Gemini API key not found, falling back to OpenAI"]
          cache := some .openai }
      else
        { result := .error "No AI provider available", warnings := [], cache := none }
    | .openai =>
      if env.openaiKey then
        { result := .ok .openai, warnings := [], cache := some .openai }
      else if env.geminiKey then
        { result := .ok .gemini
          warnings := ["OpenAI API key not found, falling back to Gemini"]
          cache := some .gemini }
      else
        { result := .error "No AI provider available", warnings := [], cache := none }

/-- Model of AIService.reset: clear the cached instance. -/
def resetInstance (_cached : Option Provider) : Option Provider := none

/-- Backend responses seen by one uncached run of ensureCollection: the
first getCollection outcome, the createCollection outcome, and the
getCollection outcome of the retry after an already-exists failure.
Collection handles are modelled as natural numbers. -/
structure CollBackend where
  getFirst : Except String Nat
  createRes : Except String Nat
  getSecond : Except String Nat

/-- One backend call made by ensureCollection. -/
inductive BackendCall where
  | getCall : BackendCall
  | createCall : BackendCall
  deriving DecidableEq

/-- Result of one call to ensureCollection: the returned or thrown value,
the cached handle afterwards, and the backend calls made in order. -/
structure EnsureOutcome where
  result : Except String Nat
  cache : Option Nat
  calls : List BackendCall

/-- Substring test on strings, modelling String.prototype.includes. -/
def strIncludes (s pat : String) : Bool := containsSub pat.toList s.toList

/-- Model of ChromaVectorStore.ensureCollection: return the cached handle
with no backend calls when present; otherwise fetch, create on fetch
failure, and when creation fails with a nonempty message containing the
already-exists signal fetch again; every successfully obtained handle is
cached, and failure paths rethrow with nothing cached. -/
def ensureCollection (cached : Option Nat) (b : CollBackend) : EnsureOutcome :=
  match cached with
  | some c => { result := .ok c, cache := some c, calls := [] }
  | none =>
    match b.getFirst with
    | .ok c => { result := .ok c, cache := some c, calls := [.getCall] }
    | .error _ =>
      match b.createRes with
      | .ok c => { result := .ok c, cache := some c, calls := [.getCall, .createCall] }
      | .error msg =>
        if msg ≠ "" ∧ strIncludes msg "already exists" then
          match b.getSecond with
          | .ok c =>
            { result := .ok c, cache := some c
              calls := [.getCall, .createCall, .getCall] }
          | .error e =>
            { result := .error e, cache := none
              calls := [.getCall, .createCall, .getCall] }
        else
          { result := .error msg, cache := none, calls := [.getCall, .createCall] }

/-! Theorems about the embedded pipeline. -/

/-- C1 counterexample: a model response that parses to an object with the
valid verdict TRUE but with the confidence and explanation fields absent is
a schema violation, yet verdict synthesis does not return the fixed
fallback result: the verdict TRUE is kept and the clamped confidence is
the NaN value arising from clamping an undefined field. -/
theorem claim1_counterexample :
    generateFactCheckAnalysis (.parsed (some "TRUE") none none) ≠ fallbackAnalysis ∧
    (generateFactCheckAnalysis (.parsed (some "TRUE") none none)).verdict = "TRUE" ∧
    (generateFactCheckAnalysis (.parsed (some "TRUE") none none)).confidence = none := by
  decide

/-- C1 (amended): for every claim string and evidence list, if verdict
synthesis encounters a model-call failure, a JSON parse failure, or a
parsed verdict value outside the five-element enumeration, then
generateFactCheckAnalysis returns exactly the fixed fallback result with
verdict UNVERIFIED, confidence one tenth and the fixed explanation, and,
being total, it never raises to its caller; a response that parses to an
object carrying a valid verdict is however accepted even when its
confidence or explanation fields are absent. -/
theorem claim1_fallback_on_failure (o : SynthesisOutcome)
    (h : o = .modelCallFailure ∨ o = .parseFailure ∨
      ∃ v c e, o = .parsed v c e ∧ isValidVerdict v = false) :
    generateFactCheckAnalysis o = fallbackAnalysis := by
  rcases h with h | h | ⟨v, c, e, h, hv⟩ <;> subst h <;>
    simp [generateFactCheckAnalysis, analysisTryBlock, *]

/-- C1 witness: verdict synthesis on a JSON parse failure returns the fixed
fallback result. -/
theorem claim1_witness :
    generateFactCheckAnalysis .parseFailure = fallbackAnalysis :=
  claim1_fallback_on_failure _ (Or.inr (Or.inl rfl))

/-- C3: for every model response that parses successfully with a valid
verdict and a numeric confidence, the synthesized confidence equals the
parsed confidence clamped into the unit interval, values at least 1
becoming 1 and values at most 0 becoming 0, and the out-of-range response
is never rejected as an error: the parsed verdict and explanation are
returned unchanged. -/
theorem claim3_confidence_clamped (v : String) (q : ℚ) (e : Option String)
    (h : isValidVerdict (some v) = true) :
    generateFactCheckAnalysis (.parsed (some v) (some q) e) =
      { verdict := v, confidence := some (max 0 (min 1 q)), explanation := e } ∧
    (1 ≤ q →
      (generateFactCheckAnalysis (.parsed (some v) (some q) e)).confidence = some 1) ∧
    (q ≤ 0 →
      (generateFactCheckAnalysis (.parsed (some v) (some q) e)).confidence = some 0) := by
  have hmain : generateFactCheckAnalysis (.parsed (some v) (some q) e) =
      { verdict := v, confidence := some (max 0 (min 1 q)), explanation := e } := by
    simp [generateFactCheckAnalysis, analysisTryBlock, h, jsMax, jsMin]
  refine ⟨hmain, ?_, ?_⟩
  · intro h1
    rw [hmain]
    show some (max 0 (min 1 q)) = some 1
    rw [min_eq_left h1]
    norm_num
  · intro h0
    rw [hmain]
    show some (max 0 (min 1 q)) = some 0
    rw [min_eq_right (le_trans h0 zero_le_one), max_eq_left h0]

/-- C3 witness: a parsed confidence of seventeen tenths with verdict TRUE
is clamped to 1. -/
theorem claim3_witness :
    (generateFactCheckAnalysis
      (.parsed (some "TRUE") (some (17 / 10)) (some "x"))).confidence = some 1 :=
  (claim3_confidence_clamped "TRUE" (17 / 10) (some "x") (by decide)).2.1 (by norm_num)

/-- C4: for every filter map, a map producing zero conditions compiles to
no filter, which matches every record rather than excluding everything; a
map producing exactly one condition compiles to that bare condition with no
conjunction wrapper; and a map producing two or more conditions compiles to
an and-conjunction containing exactly those conditions. -/
theorem claim4_filter_compilation (f : List (String × FilterValue)) :
    ((f.map entryConds).flatten = [] → convertFilterToWhere f = none ∧
      ∀ md : Metadata, matchesWhereOpt md (convertFilterToWhere f) = true) ∧
    (∀ c, (f.map entryConds).flatten = [c] →
      convertFilterToWhere f = some (.single c)) ∧
    (∀ c c2 rest, (f.map entryConds).flatten = c :: c2 :: rest →
      convertFilterToWhere f = some (.conj (c :: c2 :: rest))) := by
  refine ⟨?_, ?_, ?_⟩
  · intro h
    refine ⟨?_, ?_⟩
    · simp [convertFilterToWhere, h]
    · intro md
      simp [convertFilterToWhere, h, matchesWhereOpt]
  · intro c h
    simp [convertFilterToWhere, h]
  · intro c c2 rest h
    simp [convertFilterToWhere, h]

/-- C4 witness: the empty filter compiles to no filter and matches an
arbitrary record; a lone source membership compiles to the bare condition;
source membership plus credibility floor compile to a conjunction holding
exactly both conditions. -/
theorem claim4_witness :
    (convertFilterToWhere [] = none ∧
      matchesWhereOpt ⟨"t", "s", "d", "c", 1, "m"⟩ (convertFilterToWhere []) = true) ∧
    convertFilterToWhere [("source", .obj none none (some [.str "s"]))] =
      some (.single (.inCond "source" [.str "s"])) ∧
    convertFilterToWhere
      [("source", .obj none none (some [.str "s"])),
       ("credibilityScore", .obj (some (.num (6 / 10))) none none)] =
      some (.conj [.inCond "source" [.str "s"],
        .gteCond "credibilityScore" (.num (6 / 10))]) :=
  ⟨⟨((claim4_filter_compilation []).1 (by decide)).1,
    ((claim4_filter_compilation []).1 (by decide)).2 _⟩,
   (claim4_filter_compilation _).2.1 _ (by decide),
   (claim4_filter_compilation _).2.2 _ _ _ rfl⟩

/-- C5 counterexample: two concrete unsupported field and operator pairs
that the compiler accepts instead of failing at compile time: an upper
bound on credibilityScore is silently dropped so the filter compiles to no
filter at all, and an unrecognized field is passed through as a direct
equality condition to query time. -/
theorem claim5_counterexample :
    convertFilterToWhere [("credibilityScore", .obj none (some (.num (1 / 2))) none)]
      = none ∧
    convertFilterToWhere [("location", .prim (.str "x"))] =
      some (.single (.eqCond "location" (.prim (.str "x")))) := by
  decide

/-- C5 (amended): the filter compiler is total and never fails with an
UnsupportedFilterError: a credibilityScore object without a gte field,
whatever unsupported operators it carries, contributes no condition and is
silently dropped, and a primitive value on any field, recognized or not, is
passed through as a direct equality condition to query time. -/
theorem claim5_no_unsupported_error (k : String) (v : JsVal)
    (l : Option JsVal) (i : Option (List JsVal)) :
    entryConds (k, .prim v) = [.eqCond k (.prim v)] ∧
    entryConds ("credibilityScore", .obj none l i) = [] :=
  ⟨rfl, rfl⟩

/-- C5 witness: the amended compilation facts at concrete inputs: an
unrecognized field with a primitive value becomes a direct equality
condition, and a credibilityScore object carrying only an unsupported upper
bound contributes no condition. -/
theorem claim5_witness :
    entryConds ("location", .prim (.str "x")) =
      [.eqCond "location" (.prim (.str "x"))] ∧
    entryConds ("credibilityScore", .obj none (some (.num (1 / 2))) none) = [] :=
  ⟨(claim5_no_unsupported_error "location" (.str "x") none none).1,
   (claim5_no_unsupported_error "location" (.str "x") (some (.num (1 / 2))) none).2⟩

/-- C10: for every successful checkClaim invocation, when the optional
articleId argument is omitted the result carries the empty string in its
articleId field, which is always a present string, and when an articleId is
supplied the result carries that exact value. -/
theorem claim10_article_id (store : List StoredRecord) (emb : List ℚ)
    (claim : String) (o : SynthesisOutcome) (now : Nat) :
    (checkClaim store emb claim none o now).articleId = "" ∧
    ∀ aid : String, (checkClaim store emb claim (some aid) o now).articleId = aid := by
  refine ⟨rfl, ?_⟩
  intro aid
  show jsOrEmpty (some aid) = aid
  by_cases h : aid = "" <;> simp [jsOrEmpty, h]

/-- C10 witness: a concrete checkClaim run without articleId carries the
empty string, and a run with articleId a7 carries exactly a7. -/
theorem claim10_witness :
    (checkClaim [] [] "c" none .parseFailure 0).articleId = "" ∧
    (checkClaim [] [] "c" (some "a7") .parseFailure 0).articleId = "a7" :=
  ⟨(claim10_article_id [] [] "c" .parseFailure 0).1,
   (claim10_article_id [] [] "c" .parseFailure 0).2 "a7"⟩

/-- Helper: membership in the credibility-filtered search results forces
the metadata credibility to reach the floor. -/
theorem searchSimilar_credibility_floor (store : List StoredRecord) (emb : List ℚ)
    (q : ℚ) (hit : SearchHit)
    (hmem : hit ∈ searchSimilar store emb 10
      (some [("credibilityScore", FilterValue.obj (some (.num q)) none none)])) :
    q ≤ hit.metadata.credibilityScore := by
  have hs : searchSimilar store emb 10
      (some [("credibilityScore", FilterValue.obj (some (.num q)) none none)]) =
      ((store.filter (fun r => matchesWhereOpt r.md
          (some (.single (.gteCond "credibilityScore" (.num q)))))).take 10).map
        (fun r => { id := r.id, score := 1 - r.dist, metadata := r.md }) := rfl
  rw [hs] at hmem
  rcases List.mem_map.1 hmem with ⟨r, hr, hfr⟩
  have hr2 : r ∈ store.filter
      (fun r => matchesWhereOpt r.md
        (some (.single (.gteCond "credibilityScore" (.num q))))) :=
    List.take_subset _ _ hr
  have hpred : decide (q ≤ r.md.credibilityScore) = true :=
    (List.mem_filter.1 hr2).2
  have hle : q ≤ r.md.credibilityScore := of_decide_eq_true hpred
  rw [← hfr]
  exact hle

/-- C2: every checkClaim invocation retrieves evidence with topK ten and
the mandatory credibility floor filter of six tenths, so the supporting
evidence list passed to verdict synthesis holds at most ten items and never
an item whose credibility score is below six tenths, regardless of
similarity. -/
theorem claim2_evidence_credibility (store : List StoredRecord) (emb : List ℚ)
    (claim : String) (aid : Option String) (o : SynthesisOutcome) (now : Nat) :
    (∀ e ∈ (checkClaim store emb claim aid o now).supportingEvidence,
      (6 / 10 : ℚ) ≤ e.credibilityScore) ∧
    (checkClaim store emb claim aid o now).supportingEvidence.length ≤ 10 := by
  constructor
  · intro e he
    have hev : (checkClaim store emb claim aid o now).supportingEvidence =
        (searchSimilar store emb 10
          (some [("credibilityScore", FilterValue.obj (some (.num (6 / 10))) none none)])).map
          (fun r =>
            { articleId := r.id
              relevantText := String.mk (extractRelevantText claim.toList
                (jsOrStr r.metadata.summary r.metadata.title).toList)
              source := r.metadata.source
              credibilityScore := r.metadata.credibilityScore }) := rfl
    rw [hev] at he
    rcases List.mem_map.1 he with ⟨hit, hhit, hfe⟩
    have := searchSimilar_credibility_floor store emb (6 / 10) hit hhit
    rw [← hfe]
    exact this
  · show ((searchSimilar store emb 10 _).map _).length ≤ 10
    rw [List.length_map]
    unfold searchSimilar
    rw [List.length_map]
    exact List.length_take_le _ _

/-- C2 witness: on a store holding one record of credibility nine tenths
and one of credibility one half, the evidence item built from the first
record is in the result and satisfies the credibility floor. -/
theorem claim2_witness :
    (6 / 10 : ℚ) ≤ (Evidence.mk "a1" "ev" "s" (9 / 10)).credibilityScore :=
  (claim2_evidence_credibility
    [⟨"a1", 1 / 10, ⟨"t1", "s", "2024", "c", 9 / 10, "ev"⟩⟩,
     ⟨"a2", 2 / 10, ⟨"t2", "s2", "2024", "c", 1 / 2, "low"⟩⟩]
    [] "" none .parseFailure 0).1 _ (by
      have hm1 : matchesWhereOpt (Metadata.mk "t1" "s" "2024" "c" (9 / 10) "ev")
          (some (.single (.gteCond "credibilityScore" (.num (6 / 10))))) = true := by
        show decide ((6 / 10 : ℚ) ≤ (9 / 10 : ℚ)) = true
        norm_num
      have hm2 : matchesWhereOpt (Metadata.mk "t2" "s2" "2024" "c" (1 / 2) "low")
          (some (.single (.gteCond "credibilityScore" (.num (6 / 10))))) = false := by
        show decide ((6 / 10 : ℚ) ≤ (1 / 2 : ℚ)) = false
        norm_num
      have hexf : String.mk (extractRelevantText (String.toList "")
          (String.toList "ev")) = "ev" := by decide
      show Evidence.mk "a1" "ev" "s" (9 / 10) ∈
        (((List.filter (fun r : StoredRecord => matchesWhereOpt r.md
            (some (.single (.gteCond "credibilityScore" (.num (6 / 10))))))
            ([⟨"a1", 1 / 10, ⟨"t1", "s", "2024", "c", 9 / 10, "ev"⟩⟩,
              ⟨"a2", 2 / 10, ⟨"t2", "s2", "2024", "c", 1 / 2, "low"⟩⟩] :
              List StoredRecord)).take 10).map
          (fun r : StoredRecord => SearchHit.mk r.id (1 - r.dist) r.md)).map
          (fun r : SearchHit => Evidence.mk r.id (String.mk (extractRelevantText
            (String.toList "") (jsOrStr r.metadata.summary r.metadata.title).toList))
            r.metadata.source r.metadata.credibilityScore)
      rw [List.filter_cons, List.filter_cons, List.filter_nil]
      rw [hm1, hm2]
      simp only [if_true, if_false, Bool.false_eq_true, ite_false, ite_true]
      rw [List.take_cons, List.take_nil]
      simp only [List.map_cons, List.map_nil, jsOrStr]
      rw [if_neg (by decide : ¬ ("ev" : String) = "")]
      rw [hexf]
      exact List.mem_singleton.mpr rfl
      norm_num)

/-- C8: provider selection is deterministic with configured preference then
fallback: a cached instance is returned unchanged with no warning and no
further evaluation; when the preferred provider key is configured that
provider is instantiated; when the preferred key is missing and the
alternate key is configured the alternate is instantiated with a warning
rather than an error; when neither key is configured selection fails with
the no-provider error, nothing is instantiated or cached and no call is
made; and an explicit reset clears the cache. -/
theorem claim8_provider_selection (env : EnvConfig) (p : Provider) :
    getInstance env (some p) = { result := .ok p, warnings := [], cache := some p } ∧
    (hasKey env env.aiProvider = true →
      getInstance env none =
        { result := .ok env.aiProvider, warnings := [], cache := some env.aiProvider }) ∧
    (hasKey env env.aiProvider = false →
      hasKey env (altProvider env.aiProvider) = true →
      ∃ w, getInstance env none =
        { result := .ok (altProvider env.aiProvider), warnings := [w],
          cache := some (altProvider env.aiProvider) }) ∧
    (hasKey env .gemini = false → hasKey env .openai = false →
      getInstance env none =
        SelectOutcome.mk (.error "No AI provider available") [] none) ∧
    resetInstance (some p) = none := by
  obtain ⟨pr, g, o⟩ := env
  cases pr <;> cases g <;> cases o <;>
    refine ⟨rfl, ?_, ?_, ?_, rfl⟩ <;> intros <;>
      first
      | rfl
      | exact ⟨_, rfl⟩
      | simp_all [hasKey, altProvider]

/-- C8 witness: with an empty cache, preferred provider gemini and neither
backend key configured, selection fails at once with the no-provider
error. -/
theorem claim8_witness :
    getInstance ⟨.gemini, false, false⟩ none =
      SelectOutcome.mk (.error "No AI provider available") [] none :=
  (claim8_provider_selection ⟨.gemini, false, false⟩ .gemini).2.2.2.1 rfl rfl

/-- C9: ensureCollection returns a cached handle with no backend calls, so
the collection is resolved or created at most once per process; every
successful uncached call caches the handle it returns; and when the first
fetch fails and creation fails with a nonempty message carrying the
already-exists signal, the call falls back to fetching again and returns
the refetched handle instead of raising. -/
theorem claim9_ensure_collection (b : CollBackend) (c h : Nat) (msg e1 : String) :
    ensureCollection (some c) b = { result := .ok c, cache := some c, calls := [] } ∧
    (∀ hh : Nat, (ensureCollection none b).result = .ok hh →
      (ensureCollection none b).cache = some hh) ∧
    (b.getFirst = .error e1 → b.createRes = .error msg → msg ≠ "" →
      strIncludes msg "already exists" = true → b.getSecond = .ok h →
      ensureCollection none b =
        EnsureOutcome.mk (.ok h) (some h) [.getCall, .createCall, .getCall]) := by
  obtain ⟨g1, cr, g2⟩ := b
  refine ⟨rfl, ?_, ?_⟩
  · intro hh hres
    cases g1 with
    | ok cc => simp_all [ensureCollection]
    | error e =>
      cases cr with
      | ok cc => simp_all [ensureCollection]
      | error m =>
        by_cases hcond : m ≠ "" ∧ strIncludes m "already exists" = true
        · cases g2 with
          | ok cc => simp_all [ensureCollection]
          | error e2 => simp_all [ensureCollection]
        · simp_all [ensureCollection]
  · intro h1 h2 h3 h4 h5
    simp only at h1 h2 h5
    subst h1
    subst h2
    subst h5
    simp [ensureCollection, h3, h4]

/-- C9 witness: with an empty cache, a failing first fetch, a creation
failing with an already-exists message, and a succeeding second fetch,
ensureCollection returns the refetched handle 7 and caches it. -/
theorem claim9_witness :
    ensureCollection none ⟨.error "nf", .error "collection already exists", .ok 7⟩ =
      EnsureOutcome.mk (.ok 7) (some 7) [.getCall, .createCall, .getCall] :=
  (claim9_ensure_collection ⟨.error "nf", .error "collection already exists", .ok 7⟩
    0 7 "collection already exists" "nf").2.2 rfl rfl (by decide) (by decide) rfl

/-- Helper: the best-sentence loop either keeps its initial candidate, in
which case no sentence beats the initial match count, or returns the trim
of a sentence strictly beating the initial count and at least tying every
sentence of the list. -/
theorem bestSentence_spec (cw : List (List Char)) (ss : List (List Char))
    (best : List Char) (m : Nat) :
    (bestSentence cw ss best m = best ∧
      ∀ s ∈ ss, countMatches cw (lowerL s) ≤ m) ∨
    (∃ s ∈ ss, bestSentence cw ss best m = trimL s ∧
      m < countMatches cw (lowerL s) ∧
      ∀ s2 ∈ ss, countMatches cw (lowerL s2) ≤ countMatches cw (lowerL s)) := by
  induction ss generalizing best m with
  | nil => exact Or.inl ⟨rfl, by simp⟩
  | cons s rest ih =>
    by_cases hm : m < countMatches cw (lowerL s)
    · have heq : bestSentence cw (s :: rest) best m =
          bestSentence cw rest (trimL s) (countMatches cw (lowerL s)) := by
        simp [bestSentence, hm]
      rcases ih (trimL s) (countMatches cw (lowerL s)) with ⟨h1, h2⟩ | ⟨s', hs', h1, h2, h3⟩
      · refine Or.inr ⟨s, List.mem_cons_self s rest, ?_, hm, ?_⟩
        · rw [heq, h1]
        · intro s2 hs2
          rcases List.mem_cons.1 hs2 with rfl | hs2
          · exact le_refl _
          · exact h2 s2 hs2
      · refine Or.inr ⟨s', List.mem_cons_of_mem s hs', ?_, lt_trans hm h2, ?_⟩
        · rw [heq, h1]
        · intro s2 hs2
          rcases List.mem_cons.1 hs2 with rfl | hs2
          · exact le_of_lt h2
          · exact h3 s2 hs2
    · have heq : bestSentence cw (s :: rest) best m =
          bestSentence cw rest best m := by
        simp [bestSentence, hm]
      rcases ih best m with ⟨h1, h2⟩ | ⟨s', hs', h1, h2, h3⟩
      · refine Or.inl ⟨by rw [heq, h1], ?_⟩
        intro s2 hs2
        rcases List.mem_cons.1 hs2 with rfl | hs2
        · exact Nat.le_of_not_lt hm
        · exact h2 s2 hs2
      · refine Or.inr ⟨s', List.mem_cons_of_mem s hs', by rw [heq, h1], h2, ?_⟩
        intro s2 hs2
        rcases List.mem_cons.1 hs2 with rfl | hs2
        · exact le_trans (Nat.le_of_not_lt hm) (le_of_lt h2)
        · exact h3 s2 hs2

/-- C6 (amended): snippet extraction splits the candidate text into
sentences, scores each sentence by the count of case-insensitive,
whitespace-tokenized claim words it contains, keeps the first maximal
positively-scoring sentence trimmed; a kept sentence longer than 200
characters is cut to its first 200 characters with a three-character
ellipsis appended, so the returned text never exceeds 203 characters,
although it can exceed 200; and when no sentence scores above zero the
first 200 characters of the candidate text are returned. -/
theorem claim6_snippet_extraction (claim text : List Char) :
    (extractRelevantText claim text).length ≤ 203 ∧
    ((∀ s ∈ sentencesOf text,
        countMatches (claimWordsOf claim) (lowerL s) = 0) →
      extractRelevantText claim text = text.take 200) ∧
    (bestSentence (claimWordsOf claim) (sentencesOf text) [] 0 ≠ [] →
      (∃ s ∈ sentencesOf text,
        bestSentence (claimWordsOf claim) (sentencesOf text) [] 0 = trimL s ∧
        0 < countMatches (claimWordsOf claim) (lowerL s) ∧
        ∀ s2 ∈ sentencesOf text,
          countMatches (claimWordsOf claim) (lowerL s2) ≤
            countMatches (claimWordsOf claim) (lowerL s)) ∧
      extractRelevantText claim text =
        (if 200 < (bestSentence (claimWordsOf claim) (sentencesOf text) [] 0).length
          then (bestSentence (claimWordsOf claim) (sentencesOf text) [] 0).take 200
            ++ ellipsis
          else bestSentence (claimWordsOf claim) (sentencesOf text) [] 0)) := by
  have hb := bestSentence_spec (claimWordsOf claim) (sentencesOf text) [] 0
  have hext : extractRelevantText claim text =
      (if 200 < (bestSentence (claimWordsOf claim) (sentencesOf text) [] 0).length
        then (bestSentence (claimWordsOf claim) (sentencesOf text) [] 0).take 200
          ++ ellipsis
        else if (bestSentence (claimWordsOf claim) (sentencesOf text) [] 0).isEmpty
          then text.take 200
          else bestSentence (claimWordsOf claim) (sentencesOf text) [] 0) := rfl
  refine ⟨?_, ?_, ?_⟩
  · rw [hext]
    by_cases h200 : 200 < (bestSentence (claimWordsOf claim) (sentencesOf text) [] 0).length
    · rw [if_pos h200, List.length_append, List.length_take]
      have : min 200 (bestSentence (claimWordsOf claim) (sentencesOf text) [] 0).length
          = 200 := min_eq_left (le_of_lt h200)
      rw [this]
      norm_num [ellipsis]
    · rw [if_neg h200]
      by_cases hemp : (bestSentence (claimWordsOf claim) (sentencesOf text) [] 0).isEmpty
      · rw [if_pos hemp]
        exact le_trans (List.length_take_le _ _) (by norm_num)
      · rw [if_neg hemp]
        exact le_trans (Nat.le_of_not_lt h200) (by norm_num)
  · intro hzero
    have hnil : bestSentence (claimWordsOf claim) (sentencesOf text) [] 0 = [] := by
      rcases hb with ⟨h1, _⟩ | ⟨s, hs, _, hpos, _⟩
      · exact h1
      · rw [hzero s hs] at hpos
        exact absurd hpos (by norm_num)
    rw [hext, hnil]
    norm_num
  · intro hne
    rcases hb with ⟨h1, _⟩ | ⟨s, hs, h1, h2, h3⟩
    · exact absurd h1 hne
    · refine ⟨⟨s, hs, h1, h2, h3⟩, ?_⟩
      rw [hext]
      by_cases h200 : 200 <
          (bestSentence (claimWordsOf claim) (sentencesOf text) [] 0).length
      · rw [if_pos h200, if_pos h200]
      · rw [if_neg h200, if_neg h200,
          if_neg (by simpa [List.isEmpty_iff] using hne)]

/-- C6 witness: with claim zz and candidate text qq no sentence scores
above zero and extraction returns the first 200 characters of the candidate
text. -/
theorem claim6_witness :
    extractRelevantText (String.toList "zz") (String.toList "qq") =
      (String.toList "qq").take 200 :=
  (claim6_snippet_extraction (String.toList "zz") (String.toList "qq")).2.1 (by decide)

set_option maxRecDepth 8192 in
/-- C6 counterexample: for the claim a and a candidate text of 201 letters
a, the selected sentence is longer than 200 characters and the returned
snippet has 203 characters, exceeding the 200-character bound asserted by
the claim. -/
theorem claim6_counterexample :
    (extractRelevantText (String.toList "a") (List.replicate 201 'a')).length = 203 ∧
    ¬ (extractRelevantText (String.toList "a") (List.replicate 201 'a')).length ≤ 200 := by
  decide

/-- C7: the similarity function fails with the dimension-mismatch error
exactly when its two input vectors have different lengths, and on
equal-length vectors where either sum of squares, hence either norm, is
zero it returns 0, a genuine number rather than an error or an undefined
value. -/
theorem claim7_similarity (a b : List ℝ) :
    (calculateSimilarity a b = .error "Embeddings must have the same dimension" ↔
      a.length ≠ b.length) ∧
    (a.length = b.length → sumSq a = 0 ∨ sumSq b = 0 →
      calculateSimilarity a b = .ok 0) := by
  constructor
  · constructor
    · intro h
      by_contra hlen
      rw [calculateSimilarity.eq_def, if_neg (fun hne => hne hlen)] at h
      split at h <;> exact Except.noConfusion h
    · intro hlen
      rw [calculateSimilarity.eq_def, if_pos hlen]
  · intro hlen h0
    rw [calculateSimilarity.eq_def, if_neg (by simp [hlen]), if_pos]
    exact h0.imp (fun hz => by rw [hz, Real.sqrt_zero])
      (fun hz => by rw [hz, Real.sqrt_zero])

/-- C7 witness: a zero vector against an equal-length nonzero vector gives
similarity 0 rather than an error. -/
theorem claim7_witness :
    calculateSimilarity [(0 : ℝ), 0] [1, 2] = .ok 0 :=
  (claim7_similarity [(0 : ℝ), 0] [1, 2]).2 rfl (Or.inl (by norm_num [sumSq]))

end NewsRag
